import Mathlib

/-!
Shallow embedding of the LlamaStackDistribution reconciliation controller
(controllers/llamastackdistribution_controller.go).

One reconciliation pass is modelled as a pure function of an environment
record `Env` that fixes, for this pass, every observation the controller
makes against the cluster and over the network (results of Get calls, of
the idempotent apply helpers, of the two HTTP probes, and of the final
status write).  Mutation of `instance.Status` becomes explicit state
passing of a `Status` value; side effects on the cluster (creates, applies,
the status write) are tracked in an `Effects` record so that frame
properties ("nothing was created") are statable.

External collaborators that live outside the source file (the api types,
the pkg/deploy apply helpers, the condition setters) are modelled from the
spec and marked as such in their doc comments.
-/

namespace LlamaStackOperator

/-- Status phase of a LlamaStackDistribution, from the phase state machine:
Pending, Initializing, Ready, Failed. -/
inductive Phase where
  | Pending
  | Initializing
  | Ready
  | Failed
deriving DecidableEq, Repr

/-- Modelled from the spec: a named condition holds a boolean readiness flag
and a human-readable message.  (The condition types and setters live in the
api package and a sibling controllers file, not in the embedded source.) -/
structure Condition where
  status : Bool
  message : String
deriving DecidableEq, Repr

/-- Modelled from the spec: provider descriptors returned by the providers
endpoint, opaque to this core beyond pass-through (name/type/status fields). -/
structure ProviderInfo where
  providerID : String
  providerType : String
  health : String
deriving DecidableEq, Repr

/-- The distribution-config summary inside status: active distribution name,
available distribution map, discovered provider list.  A cleared provider
list (Go nil slice) is the empty list. -/
structure DistributionConfig where
  activeDistribution : String := ""
  availableDistributions : List (String × String) := []
  providers : List ProviderInfo := []
deriving DecidableEq, Repr

/-- Version metadata in status: operator version, server version, last-updated
timestamp (modelled as a natural number of seconds). -/
structure VersionInfo where
  operatorVersion : String := ""
  llamaStackVersion : String := ""
  lastUpdated : Nat := 0
deriving DecidableEq, Repr

/-- The status sub-object of a LlamaStackDistribution: phase, four named
conditions (workload, storage, endpoint, health), availableReplicas, the
distribution-config summary and version metadata. -/
structure Status where
  phase : Phase := .Pending
  availableReplicas : Int := 0
  deploymentReadyCondition : Option Condition := none
  storageReadyCondition : Option Condition := none
  serviceReadyCondition : Option Condition := none
  healthCheckCondition : Option Condition := none
  distributionConfig : DistributionConfig := {}
  version : VersionInfo := {}
deriving DecidableEq, Repr

/-- Modelled from the spec: SetDeploymentReadyCondition stores the workload
readiness flag and message as the workload-ready condition. -/
def SetDeploymentReadyCondition (s : Status) (ready : Bool) (msg : String) : Status :=
  { s with deploymentReadyCondition := some { status := ready, message := msg } }

/-- Modelled from the spec: SetStorageReadyCondition stores the storage
readiness flag and message as the storage-ready condition. -/
def SetStorageReadyCondition (s : Status) (ready : Bool) (msg : String) : Status :=
  { s with storageReadyCondition := some { status := ready, message := msg } }

/-- Modelled from the spec: SetServiceReadyCondition stores the endpoint
readiness flag and message as the endpoint-ready condition. -/
def SetServiceReadyCondition (s : Status) (ready : Bool) (msg : String) : Status :=
  { s with serviceReadyCondition := some { status := ready, message := msg } }

/-- Modelled from the spec: SetHealthCheckCondition stores the health
readiness flag and message as the health-ready condition. -/
def SetHealthCheckCondition (s : Status) (ready : Bool) (msg : String) : Status :=
  { s with healthCheckCondition := some { status := ready, message := msg } }

/-- Distribution reference in the spec: either a named distribution (resolved
through the cluster image map) or a directly specified image. -/
structure DistributionType where
  name : String := ""
  image : String := ""
deriving DecidableEq, Repr

/-- Optional storage request: a size (in abstract units), default applied when
absent. -/
structure StorageSpec where
  size : Option Nat := none
deriving DecidableEq, Repr

/-- The server part of the spec, restricted to the fields the embedded
functions read: distribution reference, optional storage, declared ports. -/
structure ServerSpec where
  distribution : DistributionType := {}
  storage : Option StorageSpec := none
  ports : List Int := []
deriving DecidableEq, Repr

/-- The LlamaStackDistribution resource: identity, replica count, server spec
and the status sub-object. -/
structure LlamaStackDistribution where
  name : String := "llamastack-sample"
  replicas : Int := 1
  server : ServerSpec := {}
  status : Status := {}
deriving DecidableEq, Repr

/-- Modelled from the spec: HasPorts is true when the spec declares one or
more ports (it gates endpoint synchronization and endpoint status). -/
def HasPorts (inst : LlamaStackDistribution) : Bool :=
  !inst.server.ports.isEmpty

/-- Result of a Get call against the resource store: the object, a not-found
answer, or a transport or server failure carrying a message. -/
inductive GetResult (α : Type) where
  | found (x : α)
  | notFound
  | error (msg : String)
deriving DecidableEq, Repr

/-- True when the Get ended in a failure other than not-found. -/
def GetResult.isHardError {α : Type} : GetResult α → Bool
  | .error _ => true
  | _ => false

/-- A persistent volume claim as the controller sees it: name, access modes,
requested size, and (when observed) its status phase. -/
structure PVC where
  name : String := ""
  accessModes : List String := []
  requestedStorage : Nat := 0
  statusPhase : String := ""
deriving DecidableEq, Repr

/-- The observed compute workload, restricted to the field the controller
reads for status: readyReplicas. -/
structure DeploymentObservation where
  readyReplicas : Int := 0
deriving DecidableEq, Repr

/-- The reconciler object: feature flag and cluster info, mirroring
LlamaStackDistributionReconciler (EnableNetworkPolicy, ClusterInfo). -/
structure Reconciler where
  enableNetworkPolicy : Bool := false
  clusterDistributionImages : List (String × String) := []
deriving DecidableEq, Repr

/-- The environment of one reconciliation pass: every answer the cluster, the
network and the process environment give during this pass.  Any execution of
the Go code corresponds to some Env value. -/
structure Env where
  instanceGet : GetResult LlamaStackDistribution := .notFound
  pvcGet : GetResult PVC := .notFound
  pvcCreateOutcome : Option String := none
  operatorNamespaceGet : Except String String := .ok "operator-ns"
  networkPolicyOutcome : Option String := none
  applyDeploymentOutcome : Option String := none
  applyServiceOutcome : Option String := none
  deploymentGet : GetResult DeploymentObservation := .notFound
  pvcStatusGet : GetResult PVC := .notFound
  serviceGet : Except String Unit := .ok ()
  healthHTTP : Except String Nat := .ok 200
  providersHTTP : Except String (Nat × Option (List ProviderInfo)) := .ok (200, some [])
  statusUpdateOutcome : Option String := none
  operatorVersionEnv : String := ""
  llamaStackVersionEnv : String := ""
  now : Nat := 0

/-- Cluster side effects of one pass, for frame properties.  A field is set
only when the corresponding write was issued and succeeded (for the PVC the
created object is recorded); statusWriteAttempted records that the final
status write was issued at all. -/
structure Effects where
  pvcCreated : Option PVC := none
  networkPolicyApplied : Bool := false
  networkPolicyDeleteAttempted : Bool := false
  deploymentApplied : Bool := false
  serviceApplied : Bool := false
  healthProbeAttempted : Bool := false
  providersProbeAttempted : Bool := false
  statusWriteAttempted : Bool := false
deriving DecidableEq, Repr

/-- Modelled from the spec: the default size constant applied when the spec
leaves the storage size unset (DefaultStorageSize in the api package). -/
def DefaultStorageSize : Nat := 20

/-- Deterministic child name of the storage claim: instance.Name + "-pvc". -/
def pvcName (inst : LlamaStackDistribution) : String :=
  inst.name ++ "-pvc"

/-- Message constants for the workload condition.  Modelled from the spec:
the exact wording lives in a sibling controllers file, outside the embedded
source; only that these are fixed constants distinct from the scaling
messages matters here. -/
def MessageDeploymentPending : String := "Deployment is pending"

/-- Modelled from the spec: fixed message for a ready workload. -/
def MessageDeploymentReady : String := "Deployment is ready"

/-- Modelled from the spec: fixed message for bound storage. -/
def MessageStorageReady : String := "Storage is ready"

/-- Modelled from the spec: fixed message for an existing endpoint. -/
def MessageServiceReady : String := "Service is ready"

/-- Modelled from the spec: fixed message for a failed health probe. -/
def MessageHealthCheckFailed : String := "Health check failed"

/-- Modelled from the spec: fixed message for a passed health probe. -/
def MessageHealthCheckPassed : String := "Health check passed"

/-- fetchInstance: Get the instance; not-found is benign and yields no object,
other failures are wrapped and surfaced. -/
def fetchInstance (env : Env) : Except String (Option LlamaStackDistribution) :=
  match env.instanceGet with
  | .found inst => .ok (some inst)
  | .notFound => .ok none
  | .error e => .error ("failed to fetch LlamaStackDistribution: " ++ e)

/-- checkHealth: one bounded HTTP GET of /v1/health.  A request-construction
or transport failure is an error; otherwise the probe is healthy exactly when
the response status is 200. -/
def checkHealth (healthHTTP : Except String Nat) : Except String Bool :=
  match healthHTTP with
  | .error e => .error ("failed to make health check request: " ++ e)
  | .ok code => .ok (code == 200)

/-- getProviderInfo: one bounded HTTP GET of /v1/providers.  Transport
failure, a non-200 status, and an unparsable body are each errors; otherwise
the data array is returned.  The body is modelled as the status code paired
with the parse result of the data array. -/
def getProviderInfo (providersHTTP : Except String (Nat × Option (List ProviderInfo))) :
    Except String (List ProviderInfo) :=
  match providersHTTP with
  | .error e => .error ("failed to make providers request: " ++ e)
  | .ok (code, body) =>
    if code ≠ 200 then
      .error ("failed to query providers endpoint: returned status code " ++ toString code)
    else
      match body with
      | none => .error "failed to unmarshal providers response"
      | some data => .ok data

/-- Modelled from the spec: validateDistribution requires the distribution
reference to be exactly one of a name or an explicit image — mutually
exclusive, and failing when neither is set. -/
def validateDistribution (d : DistributionType) : Option String :=
  if d.name ≠ "" && d.image ≠ "" then
    some "both distribution name and image are set"
  else if d.name = "" && d.image = "" then
    some "distribution name or image must be set"
  else
    none

/-- Modelled from the spec: resolveImage looks a named distribution up in the
cluster distribution-image map (failing when the name is unknown) or passes
an explicit image through. -/
def resolveImage (images : List (String × String)) (d : DistributionType) :
    Except String String :=
  if d.name ≠ "" then
    match images.lookup d.name with
    | some img => .ok img
    | none => .error ("failed to validate distribution: distribution not found: " ++ d.name)
  else if d.image ≠ "" then
    .ok d.image
  else
    .error "failed to validate distribution: distribution name or image must be set"

/-- Outcome of the storage synchronization step: an error message or success,
and the claim created by this step, when one was.  There is no update field:
the source performs no update on an existing claim (PVCs are immutable after
creation). -/
structure PVCOutcome where
  result : Option String := none
  created : Option PVC := none
deriving DecidableEq, Repr

/-- reconcilePVC: build the desired claim from the requested size (default
constant when unset) and the fixed ReadWriteOnce access mode; create it when
none of the deterministic name exists; when one exists, perform no further
action.  A fetch failure other than not-found is wrapped and surfaced.  (The
SetControllerReference call is an external helper that only fails on scheme
misconfiguration and is not modelled.) -/
def reconcilePVC (env : Env) (inst : LlamaStackDistribution) (storage : StorageSpec) :
    PVCOutcome :=
  let size := storage.size.getD DefaultStorageSize
  let pvc : PVC :=
    { name := pvcName inst, accessModes := ["ReadWriteOnce"],
      requestedStorage := size, statusPhase := "" }
  match env.pvcGet with
  | .notFound =>
    match env.pvcCreateOutcome with
    | none => { result := none, created := some pvc }
    | some e => { result := some e, created := none }
  | .found _ => { result := none, created := none }
  | .error e => { result := some ("failed to fetch PVC: " ++ e), created := none }

/-- reconcileNetworkPolicy: when the feature flag is disabled, delete the
policy if present (HandleDisabledNetworkPolicy, an external helper whose
outcome the environment fixes); when enabled, look the operator namespace up
and apply the two-rule ingress policy (ApplyNetworkPolicy, external).
Returns the error, whether the apply succeeded, and whether the disabled
branch ran. -/
def reconcileNetworkPolicy (r : Reconciler) (env : Env) :
    Option String × Bool × Bool :=
  if !r.enableNetworkPolicy then
    (env.networkPolicyOutcome, false, true)
  else
    match env.operatorNamespaceGet with
    | .error e => (some ("failed to get operator namespace: " ++ e), false, false)
    | .ok _ => (env.networkPolicyOutcome, env.networkPolicyOutcome.isNone, false)

/-- reconcileDeployment: validate the distribution reference, resolve the
image, build the workload (pod template construction is external pure
helpers) and hand it to the idempotent apply (deploy.ApplyDeployment,
external, outcome fixed by the environment).  Returns the error and whether
the apply succeeded. -/
def reconcileDeployment (r : Reconciler) (env : Env) (inst : LlamaStackDistribution) :
    Option String × Bool :=
  match validateDistribution inst.server.distribution with
  | some e => (some e, false)
  | none =>
    match resolveImage r.clusterDistributionImages inst.server.distribution with
    | .error e => (some e, false)
    | .ok _ => (env.applyDeploymentOutcome, env.applyDeploymentOutcome.isNone)

/-- reconcileService: hand the endpoint to the idempotent apply
(deploy.ApplyService, external).  Returns the error and whether the apply
succeeded. -/
def reconcileService (env : Env) : Option String × Bool :=
  (env.applyServiceOutcome, env.applyServiceOutcome.isNone)

/-- The storage step of reconcileResources: reconcile the claim only when
storage is configured, wrapping its error with the resource kind; the second
component records the claim this step created, when one was. -/
def reconcilePVCStep (env : Env) (inst : LlamaStackDistribution) :
    Option String × Option PVC :=
  match inst.server.storage with
  | none => (none, none)
  | some st =>
    let o := reconcilePVC env inst st
    (o.result.map (fun e => "failed to reconcile PVC: " ++ e), o.created)

/-- reconcileResources: synchronize the storage claim (only when storage is
configured), the ingress policy, the workload, and the endpoint (only when
ports are declared), in that order, aborting at the first error; errors are
wrapped with the failing resource kind.  The second component records the
cluster side effects of the pass so far. -/
def reconcileResources (r : Reconciler) (env : Env) (inst : LlamaStackDistribution) :
    Option String × Effects :=
  match reconcilePVCStep env inst with
  | (some e, created) => (some e, { pvcCreated := created })
  | (none, created) =>
    let np := reconcileNetworkPolicy r env
    match np.1 with
    | some e =>
      (some ("failed to reconcile NetworkPolicy: " ++ e),
       { pvcCreated := created, networkPolicyApplied := np.2.1,
         networkPolicyDeleteAttempted := np.2.2 })
    | none =>
      let dep := reconcileDeployment r env inst
      match dep.1 with
      | some e =>
        (some ("failed to reconcile Deployment: " ++ e),
         { pvcCreated := created, networkPolicyApplied := np.2.1,
           networkPolicyDeleteAttempted := np.2.2 })
      | none =>
        if HasPorts inst then
          let svc := reconcileService env
          ((svc.1.map (fun e => "failed to reconcile service: " ++ e)),
           { pvcCreated := created, networkPolicyApplied := np.2.1,
             networkPolicyDeleteAttempted := np.2.2, deploymentApplied := dep.2,
             serviceApplied := svc.2 })
        else
          (none,
           { pvcCreated := created, networkPolicyApplied := np.2.1,
             networkPolicyDeleteAttempted := np.2.2, deploymentApplied := dep.2 })

/-- updateDeploymentStatus: fetch the workload; a failure other than
not-found is surfaced and aborts the status evaluation.  Otherwise the phase
and the workload condition are set by the first matching case — not found,
readyReplicas equal to zero, fewer ready than desired (scaling), more ready
than desired (scaling down), and, by default, workload ready — and
availableReplicas is always set to the observed readyReplicas (zero for a
missing workload).  Returns the workload-ready flag and the updated status. -/
def updateDeploymentStatus (env : Env) (specReplicas : Int) (s : Status) :
    Except String (Bool × Status) :=
  match env.deploymentGet with
  | .error e => .error ("failed to fetch deployment for status: " ++ e)
  | .notFound =>
    let s1 := SetDeploymentReadyCondition { s with phase := .Pending } false
      MessageDeploymentPending
    .ok (false, { s1 with availableReplicas := 0 })
  | .found d =>
    if d.readyReplicas = 0 then
      let s1 := SetDeploymentReadyCondition { s with phase := .Initializing } false
        MessageDeploymentPending
      .ok (false, { s1 with availableReplicas := d.readyReplicas })
    else if d.readyReplicas < specReplicas then
      let msg := "Deployment is scaling: " ++ toString d.readyReplicas ++ "/" ++
        toString specReplicas ++ " replicas ready"
      let s1 := SetDeploymentReadyCondition { s with phase := .Initializing } false msg
      .ok (false, { s1 with availableReplicas := d.readyReplicas })
    else if d.readyReplicas > specReplicas then
      let msg := "Deployment is scaling down: " ++ toString d.readyReplicas ++ "/" ++
        toString specReplicas ++ " replicas ready"
      let s1 := SetDeploymentReadyCondition { s with phase := .Initializing } false msg
      .ok (false, { s1 with availableReplicas := d.readyReplicas })
    else
      let s1 := SetDeploymentReadyCondition { s with phase := .Ready } true
        MessageDeploymentReady
      let s2 :=
        if s1.version.llamaStackVersion == "" then
          { s1 with version := { s1.version with llamaStackVersion := env.llamaStackVersionEnv } }
        else s1
      .ok (true, { s2 with availableReplicas := d.readyReplicas })

/-- updateStorageStatus: only when storage is configured, read the claim and
set the storage condition from its bound state; read failures set the
condition false without escalating. -/
def updateStorageStatus (env : Env) (inst : LlamaStackDistribution) (s : Status) : Status :=
  match inst.server.storage with
  | none => s
  | some _ =>
    match env.pvcStatusGet with
    | .found pvc =>
      if pvc.statusPhase == "Bound" then
        SetStorageReadyCondition s true MessageStorageReady
      else
        SetStorageReadyCondition s false ("PVC is not bound: " ++ pvc.statusPhase)
    | .notFound =>
      SetStorageReadyCondition s false "Failed to get PVC: not found"
    | .error e =>
      SetStorageReadyCondition s false ("Failed to get PVC: " ++ e)

/-- updateServiceStatus: only when ports are declared, read the endpoint and
set the endpoint condition from its mere existence; any read failure
(not-found included) sets the condition false without escalating. -/
def updateServiceStatus (env : Env) (inst : LlamaStackDistribution) (s : Status) : Status :=
  if !HasPorts inst then s
  else
    match env.serviceGet with
    | .error e => SetServiceReadyCondition s false ("Failed to get Service: " ++ e)
    | .ok _ => SetServiceReadyCondition s true MessageServiceReady

/-- updateDistributionConfig: record the available distribution map from the
cluster info and the active distribution (the configured name, or "custom"
for an explicit image, or empty).  The provider list is untouched here. -/
def updateDistributionConfig (r : Reconciler) (inst : LlamaStackDistribution) (s : Status) :
    Status :=
  let active :=
    if inst.server.distribution.name ≠ "" then inst.server.distribution.name
    else if inst.server.distribution.image ≠ "" then "custom"
    else ""
  { s with distributionConfig :=
      { s.distributionConfig with
          availableDistributions := r.clusterDistributionImages,
          activeDistribution := active } }

/-- performHealthChecks: run the health probe — a transport error yields
Initializing, an unhealthy (non-200) answer yields Failed, a healthy answer
yields Ready, with the health condition set accordingly — then, independently
of the health outcome, attempt the provider listing: on failure the provider
list is cleared, on success it is attached. -/
def performHealthChecks (env : Env) (s : Status) : Status :=
  let s1 :=
    match checkHealth env.healthHTTP with
    | .error e =>
      SetHealthCheckCondition { s with phase := .Initializing } false
        ("Health check failed: " ++ e)
    | .ok false =>
      SetHealthCheckCondition { s with phase := .Failed } false MessageHealthCheckFailed
    | .ok true =>
      SetHealthCheckCondition { s with phase := .Ready } true MessageHealthCheckPassed
  match getProviderInfo env.providersHTTP with
  | .error _ =>
    { s1 with distributionConfig := { s1.distributionConfig with providers := [] } }
  | .ok providers =>
    { s1 with distributionConfig := { s1.distributionConfig with providers := providers } }

/-- Outcome of updateStatus: the returned error (if any), the in-memory
status the pass left on the instance, whether the final status write was
issued, whether the probes ran, and the workload-ready flag the pass
observed. -/
structure StatusOutcome where
  result : Option String := none
  status : Status
  statusWriteAttempted : Bool := false
  healthProbeAttempted : Bool := false
  providersProbeAttempted : Bool := false
  deploymentReadyObserved : Bool := false
deriving DecidableEq, Repr

/-- First step of updateStatus: initialize the operator version from the
process environment when unset. -/
def initOperatorVersion (env : Env) (s : Status) : Status :=
  if s.version.operatorVersion == "" then
    { s with version := { s.version with operatorVersion := env.operatorVersionEnv } }
  else s

/-- Last step of updateStatus before the write: stamp the last-updated
timestamp. -/
def stampLastUpdated (env : Env) (s : Status) : Status :=
  { s with version := { s.version with lastUpdated := env.now } }

/-- Middle of the error-free branch of updateStatus, after the workload
status was evaluated successfully: evaluate the storage, endpoint and
distribution-config summaries, then either run the health checks (workload
ready) or force the health condition false with the explanatory message and
clear the provider list (workload not ready). -/
def updateStatusCore (r : Reconciler) (env : Env) (inst : LlamaStackDistribution)
    (deploymentReady : Bool) (s1 : Status) : Status :=
  let s2 := updateStorageStatus env inst s1
  let s3 := updateServiceStatus env inst s2
  let s4 := updateDistributionConfig r inst s3
  if deploymentReady then
    performHealthChecks env s4
  else
    let t := SetHealthCheckCondition s4 false "Deployment not ready"
    { t with distributionConfig := { t.distributionConfig with providers := [] } }

/-- updateStatus: initialize the operator version from the environment when
unset; a reconciliation error takes absolute priority and forces Failed with
the workload condition set; otherwise evaluate the workload status (aborting
with no status write on a hard fetch failure) and the remaining summaries
(updateStatusCore).  Finally stamp lastUpdated and issue the status write,
surfacing its error. -/
def updateStatus (r : Reconciler) (env : Env) (inst : LlamaStackDistribution)
    (reconcileErr : Option String) : StatusOutcome :=
  let s0 := initOperatorVersion env inst.status
  match reconcileErr with
  | some e =>
    let s1 := SetDeploymentReadyCondition { s0 with phase := .Failed } false
      ("Resource reconciliation failed: " ++ e)
    { result := env.statusUpdateOutcome.map (fun e2 => "failed to update status: " ++ e2),
      status := stampLastUpdated env s1, statusWriteAttempted := true }
  | none =>
    match updateDeploymentStatus env inst.replicas s0 with
    | .error e => { result := some e, status := s0 }
    | .ok (deploymentReady, s1) =>
      { result := env.statusUpdateOutcome.map (fun e2 => "failed to update status: " ++ e2),
        status := stampLastUpdated env (updateStatusCore r env inst deploymentReady s1),
        statusWriteAttempted := true,
        healthProbeAttempted := deploymentReady,
        providersProbeAttempted := deploymentReady,
        deploymentReadyObserved := deploymentReady }

deriving instance DecidableEq for Except

/-- Outcome of one whole reconciliation pass: the returned result (an error,
or success with an optional requeue delay in seconds), the cluster side
effects, and the in-memory status of the instance when one was found. -/
structure ReconcileOutcome where
  result : Except String (Option Nat)
  effects : Effects := {}
  finalStatus : Option Status := none
deriving DecidableEq, Repr

/-- Reconcile: fetch the instance (absent means exit successfully with no
further action); run the resource synchronization, capturing its error; run
updateStatus with that error; a synchronization error is returned in
preference to a status-write error; on full success, request a requeue after
10 seconds exactly when the computed phase is Initializing. -/
def Reconcile (r : Reconciler) (env : Env) : ReconcileOutcome :=
  match fetchInstance env with
  | .error e => { result := .error e }
  | .ok none => { result := .ok none }
  | .ok (some inst) =>
    let sync := reconcileResources r env inst
    let so := updateStatus r env inst sync.1
    let eff : Effects :=
      { sync.2 with
        statusWriteAttempted := so.statusWriteAttempted,
        healthProbeAttempted := so.healthProbeAttempted,
        providersProbeAttempted := so.providersProbeAttempted }
    match so.result with
    | some statusErr =>
      match sync.1 with
      | some e => { result := .error e, effects := eff, finalStatus := some so.status }
      | none => { result := .error statusErr, effects := eff, finalStatus := some so.status }
    | none =>
      match sync.1 with
      | some e => { result := .error e, effects := eff, finalStatus := some so.status }
      | none =>
        if so.status.phase = .Initializing then
          { result := .ok (some 10), effects := eff, finalStatus := some so.status }
        else
          { result := .ok none, effects := eff, finalStatus := some so.status }

/-- The readyReplicas value the pass observes on the workload resource: the
fetched value, and zero when the workload is absent (the Go zero value of the
deployment object). -/
def observedReadyReplicas (env : Env) : Int :=
  match env.deploymentGet with
  | .found d => d.readyReplicas
  | _ => 0

/-! ### Concrete instances and environments used as inputs -/

/-- A sample provider descriptor for concrete evaluations. -/
def sampleProvider : ProviderInfo :=
  { providerID := "ollama", providerType := "inline", health := "OK" }

/-- A minimal valid instance: explicit image, one desired replica. -/
def instSimple : LlamaStackDistribution :=
  { name := "demo", replicas := 1,
    server := { distribution := { image := "img" } } }

/-- A pass where the workload is ready, the health probe answers 500, and the
providers endpoint answers 200 with one provider. -/
def envProbeFailedProvidersOk : Env :=
  { instanceGet := .found instSimple,
    deploymentGet := .found { readyReplicas := 1 },
    healthHTTP := .ok 500,
    providersHTTP := .ok (200, some [sampleProvider]) }

/-- An instance carrying a stale provider list in its in-memory status. -/
def instStaleProviders : LlamaStackDistribution :=
  { name := "demo", replicas := 1,
    server := { distribution := { image := "img" } },
    status := { distributionConfig := { providers := [sampleProvider] } } }

/-- A pass where the workload is not ready (zero ready replicas). -/
def envNotReady : Env :=
  { instanceGet := .found instStaleProviders,
    deploymentGet := .found { readyReplicas := 0 } }

/-- A pass whose workload-status fetch fails with a non-not-found error. -/
def envDeployFetchFails : Env :=
  { instanceGet := .found instSimple,
    deploymentGet := .error "connection refused" }

/-- An instance desiring three replicas, with an explicit image. -/
def instThree : LlamaStackDistribution :=
  { name := "demo", replicas := 3,
    server := { distribution := { image := "img" } } }

/-- A pass observing the given number of ready replicas for instThree, with
a healthy probe and an empty provider answer. -/
def envReadyReplicas (n : Int) : Env :=
  { instanceGet := .found instThree,
    deploymentGet := .found { readyReplicas := n },
    healthHTTP := .ok 200,
    providersHTTP := .ok (200, some []) }

/-- An instance whose distribution name resolves to nothing and which also
requests storage of size 5. -/
def instBadDistribution : LlamaStackDistribution :=
  { name := "demo", replicas := 1,
    server := { distribution := { name := "nope" },
                storage := some { size := some 5 } } }

/-- A reconciler knowing one distribution name, unrelated to "nope". -/
def rKnownImages : Reconciler :=
  { clusterDistributionImages := [("starter", "img")] }

/-- A pass for instBadDistribution where no storage claim exists yet. -/
def envBadDistribution : Env :=
  { instanceGet := .found instBadDistribution,
    pvcGet := .notFound,
    deploymentGet := .found { readyReplicas := 1 } }

/-- A pass where the workload apply fails and the status write also fails. -/
def envBothErrors : Env :=
  { instanceGet := .found instSimple,
    applyDeploymentOutcome := some "boom",
    deploymentGet := .found { readyReplicas := 1 },
    statusUpdateOutcome := some "conflict" }

/-- A pass where synchronization succeeds but the status write fails. -/
def envStatusErrorOnly : Env :=
  { instanceGet := .found instSimple,
    deploymentGet := .found { readyReplicas := 1 },
    statusUpdateOutcome := some "conflict" }

/-- A pass where a storage claim of the deterministic name already exists,
with a recorded size different from the one the spec now requests. -/
def envPVCFound : Env :=
  { instanceGet := .found instBadDistribution,
    pvcGet := .found { name := "demo-pvc", accessModes := ["ReadWriteOnce"],
                       requestedStorage := 10, statusPhase := "Bound" } }

/-- An instance deliberately scaled to zero replicas. -/
def instZero : LlamaStackDistribution :=
  { name := "demo", replicas := 0,
    server := { distribution := { image := "img" } } }

/-- A pass observing zero ready replicas for instZero. -/
def envZero : Env :=
  { instanceGet := .found instZero,
    deploymentGet := .found { readyReplicas := 0 } }

/-- An instance desiring two replicas, with an explicit image. -/
def instTwo : LlamaStackDistribution :=
  { name := "demo", replicas := 2,
    server := { distribution := { image := "img" } } }

/-- A pass observing two ready replicas for instTwo. -/
def envTwoReady : Env :=
  { instanceGet := .found instTwo,
    deploymentGet := .found { readyReplicas := 2 } }

/-- A pass whose health probe fails in transport. -/
def envHealthTimeout : Env := { healthHTTP := .error "timeout" }

/-- A pass whose health probe answers 500. -/
def envHealth500 : Env := { healthHTTP := .ok 500 }

/-- A pass whose health probe answers 200. -/
def envHealth200 : Env := { healthHTTP := .ok 200 }

/-! ### Frame lemmas: each status-evaluation stage touches only its own
fields -/

/-- updateStorageStatus leaves the phase untouched. -/
theorem updateStorageStatus_phase (env : Env) (inst : LlamaStackDistribution) (s : Status) :
    (updateStorageStatus env inst s).phase = s.phase := by
  unfold updateStorageStatus SetStorageReadyCondition
  repeat' split
  all_goals rfl

/-- updateStorageStatus leaves availableReplicas untouched. -/
theorem updateStorageStatus_availableReplicas (env : Env) (inst : LlamaStackDistribution)
    (s : Status) :
    (updateStorageStatus env inst s).availableReplicas = s.availableReplicas := by
  unfold updateStorageStatus SetStorageReadyCondition
  repeat' split
  all_goals rfl

/-- updateStorageStatus leaves the distribution-config summary untouched. -/
theorem updateStorageStatus_distributionConfig (env : Env) (inst : LlamaStackDistribution)
    (s : Status) :
    (updateStorageStatus env inst s).distributionConfig = s.distributionConfig := by
  unfold updateStorageStatus SetStorageReadyCondition
  repeat' split
  all_goals rfl

/-- updateServiceStatus leaves the phase untouched. -/
theorem updateServiceStatus_phase (env : Env) (inst : LlamaStackDistribution) (s : Status) :
    (updateServiceStatus env inst s).phase = s.phase := by
  unfold updateServiceStatus SetServiceReadyCondition
  repeat' split
  all_goals rfl

/-- updateServiceStatus leaves availableReplicas untouched. -/
theorem updateServiceStatus_availableReplicas (env : Env) (inst : LlamaStackDistribution)
    (s : Status) :
    (updateServiceStatus env inst s).availableReplicas = s.availableReplicas := by
  unfold updateServiceStatus SetServiceReadyCondition
  repeat' split
  all_goals rfl

/-- updateServiceStatus leaves the distribution-config summary untouched. -/
theorem updateServiceStatus_distributionConfig (env : Env) (inst : LlamaStackDistribution)
    (s : Status) :
    (updateServiceStatus env inst s).distributionConfig = s.distributionConfig := by
  unfold updateServiceStatus SetServiceReadyCondition
  repeat' split
  all_goals rfl

/-- updateDistributionConfig leaves the provider list untouched. -/
theorem updateDistributionConfig_providers (r : Reconciler) (inst : LlamaStackDistribution)
    (s : Status) :
    (updateDistributionConfig r inst s).distributionConfig.providers =
      s.distributionConfig.providers := rfl

/-- updateDistributionConfig leaves the phase untouched. -/
theorem updateDistributionConfig_phase (r : Reconciler) (inst : LlamaStackDistribution)
    (s : Status) :
    (updateDistributionConfig r inst s).phase = s.phase := rfl

/-- updateDistributionConfig leaves availableReplicas untouched. -/
theorem updateDistributionConfig_availableReplicas (r : Reconciler)
    (inst : LlamaStackDistribution) (s : Status) :
    (updateDistributionConfig r inst s).availableReplicas = s.availableReplicas := rfl

/-- The provider list performHealthChecks leaves in status is exactly the
outcome of the provider listing: the returned data on success, empty on any
failure. -/
theorem performHealthChecks_providers (env : Env) (s : Status) :
    (performHealthChecks env s).distributionConfig.providers =
      (match getProviderInfo env.providersHTTP with
       | .ok l => l
       | .error _ => []) := by
  unfold performHealthChecks
  cases hg : getProviderInfo env.providersHTTP <;> rfl

/-- The phase performHealthChecks leaves in status is a function of the
health-probe outcome alone: Initializing on a transport error, Failed on an
unhealthy answer, Ready on a healthy one. -/
theorem performHealthChecks_phase (env : Env) (s : Status) :
    (performHealthChecks env s).phase =
      (match checkHealth env.healthHTTP with
       | .error _ => Phase.Initializing
       | .ok false => Phase.Failed
       | .ok true => Phase.Ready) := by
  unfold performHealthChecks SetHealthCheckCondition
  cases hg : getProviderInfo env.providersHTTP <;>
    cases hc : checkHealth env.healthHTTP with
    | error e => rfl
    | ok b => cases b <;> rfl

/-- The health condition performHealthChecks leaves in status, by probe
outcome. -/
theorem performHealthChecks_healthCheckCondition (env : Env) (s : Status) :
    (performHealthChecks env s).healthCheckCondition =
      (match checkHealth env.healthHTTP with
       | .error e => some { status := false, message := "Health check failed: " ++ e }
       | .ok false => some { status := false, message := MessageHealthCheckFailed }
       | .ok true => some { status := true, message := MessageHealthCheckPassed }) := by
  unfold performHealthChecks SetHealthCheckCondition
  cases hg : getProviderInfo env.providersHTTP <;>
    cases hc : checkHealth env.healthHTTP with
    | error e => rfl
    | ok b => cases b <;> rfl

/-- performHealthChecks leaves availableReplicas untouched. -/
theorem performHealthChecks_availableReplicas (env : Env) (s : Status) :
    (performHealthChecks env s).availableReplicas = s.availableReplicas := by
  unfold performHealthChecks SetHealthCheckCondition
  cases hg : getProviderInfo env.providersHTTP <;>
    cases hc : checkHealth env.healthHTTP with
    | error e => rfl
    | ok b => cases b <;> rfl

/-- initOperatorVersion leaves availableReplicas untouched. -/
theorem initOperatorVersion_availableReplicas (env : Env) (s : Status) :
    (initOperatorVersion env s).availableReplicas = s.availableReplicas := by
  unfold initOperatorVersion
  split <;> rfl

/-- initOperatorVersion leaves the distribution-config summary untouched. -/
theorem initOperatorVersion_distributionConfig (env : Env) (s : Status) :
    (initOperatorVersion env s).distributionConfig = s.distributionConfig := by
  unfold initOperatorVersion
  split <;> rfl

/-- The provider list after the error-free status evaluation: when the
workload was ready, exactly the outcome of the provider listing; when it was
not ready, cleared. -/
theorem updateStatusCore_providers (r : Reconciler) (env : Env)
    (inst : LlamaStackDistribution) (b : Bool) (s1 : Status) :
    (updateStatusCore r env inst b s1).distributionConfig.providers =
      (if b then
        (match getProviderInfo env.providersHTTP with
         | .ok l => l
         | .error _ => [])
      else []) := by
  cases b
  · rfl
  · exact performHealthChecks_providers env _

/-- When the workload was not ready, the error-free status evaluation leaves
the phase exactly as the workload evaluation set it. -/
theorem updateStatusCore_phase_false (r : Reconciler) (env : Env)
    (inst : LlamaStackDistribution) (s1 : Status) :
    (updateStatusCore r env inst false s1).phase = s1.phase := by
  calc (updateStatusCore r env inst false s1).phase
      = (updateServiceStatus env inst (updateStorageStatus env inst s1)).phase := rfl
    _ = (updateStorageStatus env inst s1).phase := updateServiceStatus_phase env inst _
    _ = s1.phase := updateStorageStatus_phase env inst s1

/-- When the workload was ready, the phase after the error-free status
evaluation is determined by the health probe. -/
theorem updateStatusCore_phase_true (r : Reconciler) (env : Env)
    (inst : LlamaStackDistribution) (s1 : Status) :
    (updateStatusCore r env inst true s1).phase =
      (match checkHealth env.healthHTTP with
       | .error _ => Phase.Initializing
       | .ok false => Phase.Failed
       | .ok true => Phase.Ready) :=
  performHealthChecks_phase env _

/-- The error-free status evaluation leaves availableReplicas exactly as the
workload evaluation set it. -/
theorem updateStatusCore_availableReplicas (r : Reconciler) (env : Env)
    (inst : LlamaStackDistribution) (b : Bool) (s1 : Status) :
    (updateStatusCore r env inst b s1).availableReplicas = s1.availableReplicas := by
  have h1 : (updateServiceStatus env inst (updateStorageStatus env inst s1)).availableReplicas
      = s1.availableReplicas := by
    rw [updateServiceStatus_availableReplicas, updateStorageStatus_availableReplicas]
  cases b
  · exact h1
  · calc (updateStatusCore r env inst true s1).availableReplicas
        = (updateServiceStatus env inst (updateStorageStatus env inst s1)).availableReplicas :=
          performHealthChecks_availableReplicas env _
      _ = s1.availableReplicas := h1

/-- A hard (non-not-found) workload fetch failure is the only way the
workload evaluation aborts. -/
theorem updateDeploymentStatus_error_hard (env : Env) (n : Int) (s : Status) (e : String)
    (h : updateDeploymentStatus env n s = .error e) :
    env.deploymentGet.isHardError = true := by
  cases hd : env.deploymentGet with
  | error e2 => rfl
  | notFound =>
    simp only [updateDeploymentStatus, hd] at h
    exact Except.noConfusion h
  | found d =>
    simp only [updateDeploymentStatus, hd] at h
    split_ifs at h

/-- Whenever the workload evaluation succeeds, the availableReplicas it
records is the observed readyReplicas (zero for an absent workload). -/
theorem updateDeploymentStatus_ok_availableReplicas (env : Env) (n : Int) (s : Status)
    (b : Bool) (s1 : Status) (h : updateDeploymentStatus env n s = .ok (b, s1)) :
    s1.availableReplicas = observedReadyReplicas env := by
  cases hd : env.deploymentGet with
  | error e2 =>
    simp only [updateDeploymentStatus, hd] at h
    exact Except.noConfusion h
  | notFound =>
    simp only [updateDeploymentStatus, hd, Except.ok.injEq, Prod.mk.injEq] at h
    obtain ⟨hb, hs⟩ := h
    simp only [observedReadyReplicas, hd, ← hs]
  | found d =>
    simp only [updateDeploymentStatus, hd] at h
    split_ifs at h <;>
      (simp only [Except.ok.injEq, Prod.mk.injEq] at h
       obtain ⟨hb, hs⟩ := h
       simp only [observedReadyReplicas, hd, ← hs])

/-- Whenever the workload evaluation succeeds, the workload fetch was not a
hard failure. -/
theorem updateDeploymentStatus_ok_not_hard (env : Env) (n : Int) (s : Status)
    (b : Bool) (s1 : Status) (h : updateDeploymentStatus env n s = .ok (b, s1)) :
    env.deploymentGet.isHardError = false := by
  cases hd : env.deploymentGet with
  | error e =>
    simp only [updateDeploymentStatus, hd] at h
    exact Except.noConfusion h
  | notFound => rfl
  | found d => rfl

/-- On a pass with a synchronization error, the in-memory phase is Failed. -/
theorem updateStatus_some_phase (r : Reconciler) (env : Env)
    (inst : LlamaStackDistribution) (e : String) :
    (updateStatus r env inst (some e)).status.phase = .Failed := rfl

/-- On a pass with a synchronization error, the provider list is left exactly
as it was in the in-memory status. -/
theorem updateStatus_some_providers (r : Reconciler) (env : Env)
    (inst : LlamaStackDistribution) (e : String) :
    (updateStatus r env inst (some e)).status.distributionConfig.providers =
      inst.status.distributionConfig.providers := by
  have h1 : (updateStatus r env inst (some e)).status.distributionConfig
      = (initOperatorVersion env inst.status).distributionConfig := rfl
  rw [congrArg DistributionConfig.providers h1,
    congrArg DistributionConfig.providers (initOperatorVersion_distributionConfig env inst.status)]

/-- On a pass with a synchronization error, availableReplicas is left exactly
as it was in the in-memory status. -/
theorem updateStatus_some_availableReplicas (r : Reconciler) (env : Env)
    (inst : LlamaStackDistribution) (e : String) :
    (updateStatus r env inst (some e)).status.availableReplicas =
      inst.status.availableReplicas := by
  have h1 : (updateStatus r env inst (some e)).status.availableReplicas
      = (initOperatorVersion env inst.status).availableReplicas := rfl
  rw [h1, initOperatorVersion_availableReplicas]

/-- When the instance exists, the status write was issued exactly when
updateStatus issued it, whatever branch the pass result takes. -/
theorem Reconcile_effects_statusWrite (r : Reconciler) (env : Env)
    (inst : LlamaStackDistribution) (h : env.instanceGet = .found inst) :
    (Reconcile r env).effects.statusWriteAttempted =
      (updateStatus r env inst (reconcileResources r env inst).1).statusWriteAttempted := by
  simp only [Reconcile, fetchInstance, h]
  cases hs : (reconcileResources r env inst).1 with
  | none =>
    cases hr : (updateStatus r env inst none).result with
    | none =>
      by_cases hp : (updateStatus r env inst none).status.phase = Phase.Initializing <;>
        simp [hp]
    | some e => rfl
  | some e =>
    cases hr : (updateStatus r env inst (some e)).result with
    | none => rfl
    | some e2 => rfl

/-- When the instance exists, the workload-apply effect of the pass is the
one the synchronizer recorded, whatever branch the pass result takes. -/
theorem Reconcile_effects_deploymentApplied (r : Reconciler) (env : Env)
    (inst : LlamaStackDistribution) (h : env.instanceGet = .found inst) :
    (Reconcile r env).effects.deploymentApplied =
      (reconcileResources r env inst).2.deploymentApplied := by
  simp only [Reconcile, fetchInstance, h]
  cases hs : (reconcileResources r env inst).1 with
  | none =>
    cases hr : (updateStatus r env inst none).result with
    | none =>
      by_cases hp : (updateStatus r env inst none).status.phase = Phase.Initializing <;>
        simp [hp]
    | some e => rfl
  | some e =>
    cases hr : (updateStatus r env inst (some e)).result with
    | none => rfl
    | some e2 => rfl

/-- When the instance exists, the endpoint-apply effect of the pass is the
one the synchronizer recorded, whatever branch the pass result takes. -/
theorem Reconcile_effects_serviceApplied (r : Reconciler) (env : Env)
    (inst : LlamaStackDistribution) (h : env.instanceGet = .found inst) :
    (Reconcile r env).effects.serviceApplied =
      (reconcileResources r env inst).2.serviceApplied := by
  simp only [Reconcile, fetchInstance, h]
  cases hs : (reconcileResources r env inst).1 with
  | none =>
    cases hr : (updateStatus r env inst none).result with
    | none =>
      by_cases hp : (updateStatus r env inst none).status.phase = Phase.Initializing <;>
        simp [hp]
    | some e => rfl
  | some e =>
    cases hr : (updateStatus r env inst (some e)).result with
    | none => rfl
    | some e2 => rfl

/-- When the instance exists and synchronization failed, the pass returns
the synchronization error and leaves the failed in-memory status as its
final status, whether or not the status write failed too. -/
theorem Reconcile_syncError (r : Reconciler) (env : Env)
    (inst : LlamaStackDistribution) (e : String) (h : env.instanceGet = .found inst)
    (hsync : (reconcileResources r env inst).1 = some e) :
    (Reconcile r env).result = .error e ∧
    (Reconcile r env).finalStatus = some (updateStatus r env inst (some e)).status := by
  simp only [Reconcile, fetchInstance, h, hsync]
  cases hr : (updateStatus r env inst (some e)).result with
  | none => exact ⟨rfl, rfl⟩
  | some e2 => exact ⟨rfl, rfl⟩

/-- When the workload synchronization step fails, the whole synchronization
fails and neither the workload nor the endpoint apply was reached. -/
theorem reconcileResources_deployment_error (r : Reconciler) (env : Env)
    (inst : LlamaStackDistribution) (e : String)
    (hdep : (reconcileDeployment r env inst).1 = some e) :
    (∃ e2, (reconcileResources r env inst).1 = some e2) ∧
    (reconcileResources r env inst).2.deploymentApplied = false ∧
    (reconcileResources r env inst).2.serviceApplied = false := by
  simp only [reconcileResources]
  rcases h1 : reconcilePVCStep env inst with ⟨_ | e1, created⟩
  · cases hnp : (reconcileNetworkPolicy r env).1 with
    | some e3 => exact ⟨⟨_, rfl⟩, rfl, rfl⟩
    | none =>
      simp only [hdep]
      refine ⟨⟨_, rfl⟩, ?_, ?_⟩ <;> trivial
  · exact ⟨⟨_, rfl⟩, rfl, rfl⟩

/-! ### Claim theorems -/

/-- C1 (counterexample): the claim "the provider list is non-empty only when
the workload was ready AND the health probe succeeded; it is cleared on any
failure of either" is false on the code.  In this pass the workload is ready,
the health probe answers 500 (so the probe failed, the health condition is
false and the phase is Failed), the provider listing succeeds — and the
provider list is left non-empty, with the status written successfully. -/
theorem providersKeptDespiteFailedHealthProbe :
    (updateStatus {} envProbeFailedProvidersOk instSimple none).deploymentReadyObserved
      = true ∧
    (updateStatus {} envProbeFailedProvidersOk instSimple none).status.healthCheckCondition
      = some { status := false, message := MessageHealthCheckFailed } ∧
    (updateStatus {} envProbeFailedProvidersOk instSimple none).status.phase = .Failed ∧
    (updateStatus {} envProbeFailedProvidersOk instSimple
      none).status.distributionConfig.providers = [sampleProvider] ∧
    (updateStatus {} envProbeFailedProvidersOk instSimple none).result = none := by
  refine ⟨by decide, by decide, by decide, by decide, by decide⟩

/-- C1 (amended): on a pass with no synchronization error whose workload
fetch does not hard-fail, the provider list is non-empty only when the
workload was observed ready and the provider listing succeeded, returning
exactly that list; it is cleared when the workload is not ready and when the
listing fails — the health-probe outcome does not gate it.  On a pass with a
synchronization error the list is left unchanged (stale). -/
theorem providersGatedByWorkloadAndListing (r : Reconciler) (env : Env)
    (inst : LlamaStackDistribution) (hdep : env.deploymentGet.isHardError = false) :
    ((updateStatus r env inst none).status.distributionConfig.providers ≠ [] →
      (updateStatus r env inst none).deploymentReadyObserved = true ∧
      getProviderInfo env.providersHTTP =
        .ok (updateStatus r env inst none).status.distributionConfig.providers) ∧
    ((updateStatus r env inst none).deploymentReadyObserved = false →
      (updateStatus r env inst none).status.distributionConfig.providers = []) ∧
    (∀ e, getProviderInfo env.providersHTTP = .error e →
      (updateStatus r env inst none).status.distributionConfig.providers = []) ∧
    (∀ e, (updateStatus r env inst (some e)).status.distributionConfig.providers =
      inst.status.distributionConfig.providers) := by
  rcases hds : updateDeploymentStatus env inst.replicas (initOperatorVersion env inst.status)
    with e | ⟨b, s1⟩
  · have hh := updateDeploymentStatus_error_hard env inst.replicas _ e hds
    rw [hdep] at hh
    exact Bool.noConfusion hh
  · have hp : (updateStatus r env inst none).status.distributionConfig.providers =
        (if b then
          (match getProviderInfo env.providersHTTP with
           | .ok l => l
           | .error _ => [])
        else []) := by
      have h1 : (updateStatus r env inst none).status.distributionConfig.providers
          = (updateStatusCore r env inst b s1).distributionConfig.providers := by
        simp only [updateStatus, hds]
        rfl
      rw [h1, updateStatusCore_providers]
    have hb : (updateStatus r env inst none).deploymentReadyObserved = b := by
      simp only [updateStatus, hds]
    cases b
    · refine ⟨?_, ?_, ?_, ?_⟩
      · intro hne
        rw [hp] at hne
        simp at hne
      · intro _
        rw [hp]
        rfl
      · intro e he
        rw [hp]
        rfl
      · intro e
        exact updateStatus_some_providers r env inst e
    · refine ⟨?_, ?_, ?_, ?_⟩
      · intro hne
        refine ⟨hb, ?_⟩
        rw [hp] at hne ⊢
        cases hg : getProviderInfo env.providersHTTP with
        | error e =>
          rw [hg] at hne
          simp at hne
        | ok l => rfl
      · intro h
        rw [hb] at h
        exact Bool.noConfusion h
      · intro e he
        rw [hp, he]
        rfl
      · intro e
        exact updateStatus_some_providers r env inst e

/-- C1 (witness for the amended theorem): on a concrete pass whose workload
is not ready, the provider list is cleared even though the in-memory status
carried a stale provider entry. -/
theorem providersGatedByWorkloadAndListing_witness :
    (updateStatus {} envNotReady instStaleProviders
      none).status.distributionConfig.providers = [] :=
  (providersGatedByWorkloadAndListing {} envNotReady instStaleProviders
    (by decide)).2.1 (by decide)

/-- C2: after every status write, availableReplicas is the last-observed
readyReplicas of the workload: on an error-free pass it is this observation
(zero when the workload is absent) — including when the phase became Failed
from an unhealthy probe — and on a pass whose synchronization failed (phase
Failed with no new observation) it keeps the previously observed value. -/
theorem availableReplicasReflectsObservation (r : Reconciler) (env : Env)
    (inst : LlamaStackDistribution) (reconcileErr : Option String)
    (h : (updateStatus r env inst reconcileErr).statusWriteAttempted = true) :
    (reconcileErr = none →
      (updateStatus r env inst none).status.availableReplicas =
        observedReadyReplicas env) ∧
    (∀ e, reconcileErr = some e →
      (updateStatus r env inst reconcileErr).status.availableReplicas =
        inst.status.availableReplicas) := by
  constructor
  · intro hn
    subst hn
    rcases hds : updateDeploymentStatus env inst.replicas (initOperatorVersion env inst.status)
      with e | ⟨b, s1⟩
    · simp only [updateStatus, hds] at h
      exact Bool.noConfusion h
    · have h1 : (updateStatus r env inst none).status.availableReplicas
          = (updateStatusCore r env inst b s1).availableReplicas := by
        simp only [updateStatus, hds]
        rfl
      rw [h1, updateStatusCore_availableReplicas,
        updateDeploymentStatus_ok_availableReplicas env inst.replicas _ b s1 hds]
  · intro e he
    subst he
    exact updateStatus_some_availableReplicas r env inst e

/-- C2 (witness): concrete passes — two ready replicas observed on an
error-free pass give availableReplicas 2; a pass with a synchronization
error keeps the prior in-memory value (zero here). -/
theorem availableReplicasReflectsObservation_witness :
    (updateStatus {} envTwoReady instTwo none).status.availableReplicas =
      observedReadyReplicas envTwoReady ∧
    (updateStatus {} envTwoReady instTwo (some "sync failed")).status.availableReplicas =
      instTwo.status.availableReplicas :=
  ⟨(availableReplicasReflectsObservation {} envTwoReady instTwo none (by decide)).1 rfl,
   (availableReplicasReflectsObservation {} envTwoReady instTwo (some "sync failed")
     (by decide)).2 "sync failed" rfl⟩

/-- C3 (counterexample): the claim "the orchestrator attempts to persist the
status on every pass where the resource exists" is false on the code: on this
pass the resource exists and synchronization succeeds, yet the workload
status fetch hard-fails and the pass returns without issuing the status
write. -/
theorem statusWriteSkippedOnDeploymentFetchFailure :
    envDeployFetchFails.instanceGet = .found instSimple ∧
    (reconcileResources {} envDeployFetchFails instSimple).1 = none ∧
    (Reconcile {} envDeployFetchFails).effects.statusWriteAttempted = false := by
  refine ⟨rfl, by decide, by decide⟩

/-- C3 (amended): on every pass where the resource exists, the status write
is attempted exactly unless the pass is error-free and the workload status
fetch hard-fails; in particular it is always attempted when synchronization
failed. -/
theorem statusWriteAttemptedUnlessWorkloadFetchFails (r : Reconciler) (env : Env)
    (inst : LlamaStackDistribution) (h : env.instanceGet = .found inst) :
    (Reconcile r env).effects.statusWriteAttempted =
      ((reconcileResources r env inst).1.isSome || !env.deploymentGet.isHardError) := by
  rw [Reconcile_effects_statusWrite r env inst h]
  cases hs : (reconcileResources r env inst).1 with
  | some e =>
    simp only [updateStatus]
    simp
  | none =>
    rcases hds : updateDeploymentStatus env inst.replicas (initOperatorVersion env inst.status)
      with e2 | ⟨b, s1⟩
    · have hh := updateDeploymentStatus_error_hard env inst.replicas _ e2 hds
      simp only [updateStatus, hds, hh]
      simp
    · have hok := updateDeploymentStatus_ok_not_hard env inst.replicas _ b s1 hds
      simp only [updateStatus, hds, hok]
      simp

/-- C3 (witness for the amended theorem): with a synchronization error the
write is attempted even though the workload fetch hard-fails on the same
pass. -/
theorem statusWriteAttemptedUnlessWorkloadFetchFails_witness :
    (Reconcile rKnownImages envBadDistribution).effects.statusWriteAttempted =
      ((reconcileResources rKnownImages envBadDistribution instBadDistribution).1.isSome
        || !envBadDistribution.deploymentGet.isHardError) :=
  statusWriteAttemptedUnlessWorkloadFetchFails rKnownImages envBadDistribution
    instBadDistribution rfl

/-- C4: the replica scaling cases on an error-free pass with desired=3 —
zero ready gives Initializing with the pending message (the zero case is
checked before the scaling comparison), 2/3 gives Initializing with a
scaling message containing "2/3", 3/3 with a healthy probe gives Ready, and
4/3 gives Initializing with a scaling-down message. -/
theorem replicaScalingPhaseCases :
    ((updateStatus {} (envReadyReplicas 0) instThree none).status.phase = .Initializing ∧
     (updateStatus {} (envReadyReplicas 0) instThree none).status.deploymentReadyCondition =
       some { status := false, message := MessageDeploymentPending }) ∧
    ((updateStatus {} (envReadyReplicas 2) instThree none).status.phase = .Initializing ∧
     (∃ pre post,
       (updateStatus {} (envReadyReplicas 2) instThree none).status.deploymentReadyCondition =
         some { status := false, message := pre ++ "2/3" ++ post })) ∧
    (updateStatus {} (envReadyReplicas 3) instThree none).status.phase = .Ready ∧
    ((updateStatus {} (envReadyReplicas 4) instThree none).status.phase = .Initializing ∧
     (∃ post,
       (updateStatus {} (envReadyReplicas 4) instThree none).status.deploymentReadyCondition =
         some { status := false, message := "Deployment is scaling down: " ++ post })) := by
  refine ⟨⟨by decide, by decide⟩,
    ⟨by decide, ⟨"Deployment is scaling: ", " replicas ready", by decide⟩⟩,
    by decide,
    ⟨by decide, ⟨"4/3 replicas ready", by decide⟩⟩⟩

/-- C5: when the workload is ready the probe outcome maps to phase as
follows — a transport error gives Initializing with health-ready false, a
non-200 answer gives Failed with health-ready false, a 200 answer gives
Ready with health-ready true — and the probe reports healthy exactly when
the status is 200. -/
theorem healthProbePhaseMapping (env : Env) (s : Status) :
    (∀ e, env.healthHTTP = .error e →
      (performHealthChecks env s).phase = .Initializing ∧
      ∃ m, (performHealthChecks env s).healthCheckCondition =
        some { status := false, message := m }) ∧
    (∀ code, env.healthHTTP = .ok code → code ≠ 200 →
      (performHealthChecks env s).phase = .Failed ∧
      (performHealthChecks env s).healthCheckCondition =
        some { status := false, message := MessageHealthCheckFailed }) ∧
    (env.healthHTTP = .ok 200 →
      (performHealthChecks env s).phase = .Ready ∧
      (performHealthChecks env s).healthCheckCondition =
        some { status := true, message := MessageHealthCheckPassed }) ∧
    (∀ code : Nat, checkHealth (.ok code) = .ok true ↔ code = 200) := by
  refine ⟨?_, ?_, ?_, ?_⟩
  · intro e he
    have hc : checkHealth env.healthHTTP =
        .error ("failed to make health check request: " ++ e) := by
      simp only [checkHealth, he]
    rw [performHealthChecks_phase env s, performHealthChecks_healthCheckCondition env s, hc]
    exact ⟨rfl, ⟨_, rfl⟩⟩
  · intro code hcode hne
    have hc : checkHealth env.healthHTTP = .ok false := by
      simp only [checkHealth, hcode, Except.ok.injEq]
      exact beq_eq_false_iff_ne.mpr hne
    rw [performHealthChecks_phase env s, performHealthChecks_healthCheckCondition env s, hc]
    exact ⟨rfl, rfl⟩
  · intro h200
    have hc : checkHealth env.healthHTTP = .ok true := by
      simp only [checkHealth, h200]
      rfl
    rw [performHealthChecks_phase env s, performHealthChecks_healthCheckCondition env s, hc]
    exact ⟨rfl, rfl⟩
  · intro code
    simp [checkHealth]

/-- C5 (witness): concrete probes — a transport error gives Initializing, a
500 answer gives Failed, a 200 answer gives Ready. -/
theorem healthProbePhaseMapping_witness :
    (performHealthChecks envHealthTimeout {}).phase = .Initializing ∧
    (performHealthChecks envHealth500 {}).phase = .Failed ∧
    (performHealthChecks envHealth200 {}).phase = .Ready :=
  ⟨((healthProbePhaseMapping envHealthTimeout {}).1 "timeout" rfl).1,
   ((healthProbePhaseMapping envHealth500 {}).2.1 500 rfl (by decide)).1,
   ((healthProbePhaseMapping envHealth200 {}).2.2.1 rfl).1⟩

/-- C6 (counterexample): the claim "an unresolvable distribution name causes
phase=Failed with no child resources created" is false on the code: the
storage claim is synchronized before the workload validation, so on this
pass the claim is created even though the distribution is unresolvable and
the phase ends Failed. -/
theorem pvcCreatedDespiteUnresolvableDistribution :
    (reconcileResources rKnownImages envBadDistribution instBadDistribution).1.isSome
      = true ∧
    (Reconcile rKnownImages envBadDistribution).effects.pvcCreated =
      some { name := "demo-pvc", accessModes := ["ReadWriteOnce"], requestedStorage := 5,
             statusPhase := "" } ∧
    (Reconcile rKnownImages envBadDistribution).finalStatus.map Status.phase =
      some .Failed := by
  refine ⟨by decide, by decide, by decide⟩

/-- C6 (amended): when the distribution reference is unresolvable (no
explicit image and a name absent from the distribution-image map, which
covers the empty reference too), the pass fails: synchronization returns an
error, the in-memory phase is Failed, the pass returns an error — and
neither the workload nor the endpoint is applied.  Child resources
synchronized before the workload validation (storage claim, ingress policy)
may still be created by the same pass. -/
theorem unresolvableDistributionFailsBeforeWorkload (r : Reconciler) (env : Env)
    (inst : LlamaStackDistribution) (h : env.instanceGet = .found inst)
    (himg : inst.server.distribution.image = "")
    (hname : r.clusterDistributionImages.lookup inst.server.distribution.name = none) :
    (∃ e, (reconcileResources r env inst).1 = some e) ∧
    (Reconcile r env).effects.deploymentApplied = false ∧
    (Reconcile r env).effects.serviceApplied = false ∧
    (∀ s, (Reconcile r env).finalStatus = some s → s.phase = .Failed) ∧
    (∃ e, (Reconcile r env).result = .error e) := by
  have hdep : ∃ e, (reconcileDeployment r env inst).1 = some e := by
    unfold reconcileDeployment validateDistribution resolveImage
    by_cases hn : inst.server.distribution.name = ""
    · simp [hn, himg]
    · simp [hn, himg, hname]
  obtain ⟨e0, hdep0⟩ := hdep
  obtain ⟨⟨esync, hsync⟩, hda, hsa⟩ :=
    reconcileResources_deployment_error r env inst e0 hdep0
  refine ⟨⟨esync, hsync⟩, ?_, ?_, ?_, ?_⟩
  · rw [Reconcile_effects_deploymentApplied r env inst h, hda]
  · rw [Reconcile_effects_serviceApplied r env inst h, hsa]
  · intro s hs
    rw [(Reconcile_syncError r env inst esync h hsync).2] at hs
    rw [← Option.some.inj hs]
    exact updateStatus_some_phase r env inst esync
  · exact ⟨esync, (Reconcile_syncError r env inst esync h hsync).1⟩

/-- C6 (witness for the amended theorem): the concrete unresolvable pass
applies neither the workload nor the endpoint and ends with an error. -/
theorem unresolvableDistributionFailsBeforeWorkload_witness :
    (Reconcile rKnownImages envBadDistribution).effects.deploymentApplied = false ∧
    (Reconcile rKnownImages envBadDistribution).effects.serviceApplied = false :=
  ⟨(unresolvableDistributionFailsBeforeWorkload rKnownImages envBadDistribution
      instBadDistribution rfl rfl (by decide)).2.1,
   (unresolvableDistributionFailsBeforeWorkload rKnownImages envBadDistribution
      instBadDistribution rfl rfl (by decide)).2.2.1⟩

/-- C7: when the instance exists, a synchronization error is always the
reported outcome of the pass, even when the status write also fails; a
status-write error is reported only when synchronization succeeded. -/
theorem syncErrorReportedOverStatusWriteError (r : Reconciler) (env : Env)
    (inst : LlamaStackDistribution) (h : env.instanceGet = .found inst) :
    (∀ e, (reconcileResources r env inst).1 = some e →
      (Reconcile r env).result = .error e) ∧
    (∀ e2, (reconcileResources r env inst).1 = none →
      (updateStatus r env inst none).result = some e2 →
      (Reconcile r env).result = .error e2) := by
  constructor
  · intro e he
    exact (Reconcile_syncError r env inst e h he).1
  · intro e2 hn hu
    simp only [Reconcile, fetchInstance, h, hn, hu]

/-- C7 (witness): with both a workload-apply failure and a status-write
failure the workload error is reported; with only a status-write failure
that error is reported. -/
theorem syncErrorReportedOverStatusWriteError_witness :
    (Reconcile {} envBothErrors).result = .error "failed to reconcile Deployment: boom" ∧
    (Reconcile {} envStatusErrorOnly).result = .error "failed to update status: conflict" :=
  ⟨(syncErrorReportedOverStatusWriteError {} envBothErrors instSimple rfl).1
      "failed to reconcile Deployment: boom" (by decide),
   (syncErrorReportedOverStatusWriteError {} envStatusErrorOnly instSimple rfl).2
      "failed to update status: conflict" (by decide) (by decide)⟩

/-- C8: when a claim of the deterministic name already exists the
synchronizer performs no write at all (no creation, no error, and the
outcome type records no update operation — the source has none), whatever
size the spec now requests; when none exists and the create succeeds, the
claim is created with the requested size, or the default constant when the
spec leaves size unset. -/
theorem storageClaimImmutableOrCreatedWithRequestedSize (env : Env)
    (inst : LlamaStackDistribution) (st : StorageSpec) (p : PVC) :
    (env.pvcGet = .found p →
      reconcilePVC env inst st = { result := none, created := none }) ∧
    (env.pvcGet = .notFound → env.pvcCreateOutcome = none →
      reconcilePVC env inst st =
        { result := none,
          created := some { name := pvcName inst, accessModes := ["ReadWriteOnce"],
                            requestedStorage := st.size.getD DefaultStorageSize,
                            statusPhase := "" } }) := by
  constructor
  · intro h
    simp only [reconcilePVC, h]
  · intro h hc
    simp only [reconcilePVC, h, hc]

/-- C8 (witness): with an existing claim of size 10 and a spec now requesting
5, nothing is written; with no existing claim, one is created with size 5. -/
theorem storageClaimImmutableOrCreatedWithRequestedSize_witness :
    reconcilePVC envPVCFound instBadDistribution { size := some 5 } =
      { result := none, created := none } ∧
    reconcilePVC envBadDistribution instBadDistribution { size := some 5 } =
      { result := none,
        created := some { name := pvcName instBadDistribution,
                          accessModes := ["ReadWriteOnce"],
                          requestedStorage := (some 5).getD DefaultStorageSize,
                          statusPhase := "" } } :=
  ⟨(storageClaimImmutableOrCreatedWithRequestedSize envPVCFound instBadDistribution
      { size := some 5 }
      { name := "demo-pvc", accessModes := ["ReadWriteOnce"], requestedStorage := 10,
        statusPhase := "Bound" }).1 rfl,
   (storageClaimImmutableOrCreatedWithRequestedSize envBadDistribution instBadDistribution
      { size := some 5 } {}).2 rfl rfl⟩

/-- C9: when the desired-state resource is not found, the pass returns
success with no requeue, performs no synchronization effect at all, and
issues no status write. -/
theorem missingInstanceExitsSilently (r : Reconciler) (env : Env)
    (h : env.instanceGet = .notFound) :
    Reconcile r env = { result := .ok none, effects := {}, finalStatus := none } := by
  simp only [Reconcile, fetchInstance, h]

/-- C9 (witness): the default environment has no instance and the pass exits
silently. -/
theorem missingInstanceExitsSilently_witness :
    Reconcile {} {} = { result := .ok none, effects := {}, finalStatus := none } :=
  missingInstanceExitsSilently {} {} rfl

/-- C10: a distribution deliberately scaled to zero desired replicas, with
zero ready replicas observed, computes phase Initializing (never Ready: the
zero-ready case precedes the equality case) and every successful pass
requeues after the fixed 10 seconds. -/
theorem scaledToZeroNeverReady (r : Reconciler) (env : Env)
    (inst : LlamaStackDistribution) (d : DeploymentObservation)
    (h : env.instanceGet = .found inst) (hz : d.readyReplicas = 0)
    (hd : env.deploymentGet = .found d)
    (hsync : (reconcileResources r env inst).1 = none)
    (hw : env.statusUpdateOutcome = none) :
    (updateStatus r env inst none).status.phase = .Initializing ∧
    (Reconcile r env).result = .ok (some 10) := by
  have hds : ∃ s1, updateDeploymentStatus env inst.replicas
      (initOperatorVersion env inst.status) = .ok (false, s1) ∧
      s1.phase = .Initializing := by
    simp only [updateDeploymentStatus, hd, hz]
    exact ⟨_, rfl, rfl⟩
  obtain ⟨s1, hds, hphase1⟩ := hds
  have hphase : (updateStatus r env inst none).status.phase = .Initializing := by
    have e1 : (updateStatus r env inst none).status.phase
        = (updateStatusCore r env inst false s1).phase := by
      simp only [updateStatus, hds]
      rfl
    rw [e1, updateStatusCore_phase_false, hphase1]
  have hres : (updateStatus r env inst none).result = none := by
    simp only [updateStatus, hds, hw]
    rfl
  refine ⟨hphase, ?_⟩
  simp [Reconcile, fetchInstance, h, hsync, hres, hphase]

/-- C10 (witness): the concrete scaled-to-zero pass computes Initializing and
requeues after 10 seconds. -/
theorem scaledToZeroNeverReady_witness :
    (updateStatus {} envZero instZero none).status.phase = .Initializing ∧
    (Reconcile {} envZero).result = .ok (some 10) :=
  scaledToZeroNeverReady {} envZero instZero { readyReplicas := 0 }
    rfl rfl rfl (by decide) rfl

end LlamaStackOperator
